import Mathlib

/-!
Verification of the checkout-to-payment reconciliation pipeline of the
shoply repository (`server/app/resources/order.py` checkout initiation,
`server/app/resources/payment.py` Daraja callback handler, data model from
`server/app/models.py`).

Conventions of the shallow embedding:
* Monetary `DECIMAL(10,2)` columns are modelled as exact rationals (`ℚ`);
  the pipeline only adds, multiplies by integers and compares, so no
  rounding occurs inside the modelled code.
* Nullable columns are `Option _`.  SQLAlchemy relationships are resolved
  by explicit lookups on the database state.
* The database session is modelled by explicit state passing: a function
  receives a committed `DB` and returns the committed `DB` after the
  request.  `db.session.rollback()` corresponds to discarding the working
  copy and continuing from the committed state.  A single flag `commitOk`
  says whether `db.session.commit()` succeeds during the request (when
  `false`, every commit attempt raises, as with an unavailable database).
* Python truthiness on strings (`if not s:`) is mirrored explicitly:
  both `None` and the empty string count as missing.
-/

namespace Shoply

/-- Items of the JSON cart snapshot frozen on the transaction at checkout
(`item_details_for_transaction_snapshot` in `order.py`): artwork id, name,
quantity and price at purchase (stored as `str(price)` and re-read with
`Decimal`, an exact round trip, hence modelled as `ℚ` directly). -/
structure SnapshotItem where
  artwork_id : String
  name : String
  quantity : Int
  price_at_purchase : ℚ
  deriving Repr, DecidableEq

/-- `PaymentTransaction` model (`models.py`). -/
structure PaymentTransaction where
  id : String
  checkout_request_id : Option String
  user_id : String
  cart_id : Option String
  amount : ℚ
  phone_number : Option String
  status : String
  daraja_response_description : Option String
  cart_items_snapshot : Option (List SnapshotItem)
  selected_delivery_option_id : Option String
  applied_delivery_fee : Option ℚ
  deriving Repr, DecidableEq

/-- `Order` model (`models.py`).  `delivery_option_id` and `delivery_fee`
are the columns of lines 136-137 with defaults `NULL` and `0.00`. -/
structure Order where
  id : String
  user_id : String
  total_price : ℚ
  status : String
  shipping_address : Option String
  billing_address : Option String
  payment_gateway_ref : Option String
  delivery_option_id : Option String
  delivery_fee : ℚ
  payment_transaction_id : Option String
  deriving Repr, DecidableEq

/-- `OrderItem` model (`models.py`). -/
structure OrderItem where
  order_id : String
  artwork_id : String
  quantity : Int
  price_at_purchase : ℚ
  deriving Repr, DecidableEq

/-- `Artwork` model (`models.py`); only the fields the pipeline touches. -/
structure Artwork where
  id : String
  name : String
  price : ℚ
  stock_quantity : Int
  is_active : Bool
  artist_id : String
  deriving Repr, DecidableEq

/-- `Artist` model (`models.py`); only the fields the pipeline touches. -/
structure Artist where
  id : String
  is_active : Bool
  deriving Repr, DecidableEq

/-- `Cart` model (`models.py`). -/
structure Cart where
  id : String
  user_id : String
  deriving Repr, DecidableEq

/-- `CartItem` model (`models.py`). -/
structure CartItem where
  cart_id : String
  artwork_id : String
  quantity : Int
  deriving Repr, DecidableEq

/-- `User` model (`models.py`); only the fields the pipeline touches. -/
structure User where
  id : String
  address : Option String
  deriving Repr, DecidableEq

/-- `DeliveryOption` model (`models.py`); only the fields the pipeline
touches. -/
structure DeliveryOption where
  id : String
  price : ℚ
  active : Bool
  deriving Repr, DecidableEq

/-- The committed database state. -/
structure DB where
  users : List User
  artists : List Artist
  artworks : List Artwork
  carts : List Cart
  cartItems : List CartItem
  orders : List Order
  orderItems : List OrderItem
  transactions : List PaymentTransaction
  deliveryOptions : List DeliveryOption
  deriving Repr, DecidableEq

/-- A committed write of a transaction's `status` column: transaction id,
previous committed status (`none` for row creation) and new status. -/
structure StatusWrite where
  txn_id : String
  prev : Option String
  next : String
  deriving Repr, DecidableEq

/-- Replace the transaction with the same id (SQLAlchemy identity map:
ids are unique, the update hits exactly that row). -/
def DB.updateTxn (db : DB) (t : PaymentTransaction) : DB :=
  { db with transactions := db.transactions.map fun u => if u.id == t.id then t else u }

/-- `PaymentTransaction.query.filter_by(checkout_request_id=crid).first()`. -/
def DB.findTxnByCrid (db : DB) (crid : String) : Option PaymentTransaction :=
  db.transactions.find? fun t => t.checkout_request_id == some crid

/-- `PaymentTransaction.query.get(id)`. -/
def DB.findTxnById (db : DB) (id : String) : Option PaymentTransaction :=
  db.transactions.find? fun t => t.id == id

/-- `final_states` list of `payment.py` line 53. -/
def finalStates : List String :=
  ["successful", "failed_daraja", "cancelled_by_user", "failed_processing_error",
   "failed_underpaid", "failed_missing_receipt", "failed_timeout"]

/-- Executable addition on `ℚ`.  `Rat.add` is `@[irreducible]` in the
ambient library, which blocks kernel evaluation of concrete witnesses, so
the embedding spells `+` through `Rat.divInt`; `qadd_eq` proves it equal
to ordinary addition. -/
def qadd (a b : ℚ) : ℚ := Rat.divInt (a.num * b.den + b.num * a.den) (a.den * b.den)

/-- Executable multiplication on `ℚ`; `qmul_eq` proves it equal to
ordinary multiplication. -/
def qmul (a b : ℚ) : ℚ := Rat.divInt (a.num * b.num) (a.den * b.den)

/-- Python truthiness of an optional string (`if not s:`): missing when
`None` or empty. -/
def strMissing : Option String → Bool
  | none => true
  | some s => s == ""

/-- One decimal digit. -/
def digitVal (c : Char) : Option Nat :=
  if c.isDigit then some (c.toNat - 48) else none

/-- Digits to a natural number, left to right (`some 0` on the empty
list; callers check emptiness where the grammar demands a digit). -/
def digitsToNat (cs : List Char) : Option Nat :=
  cs.foldlM (fun acc c => (digitVal c).map fun d => acc * 10 + d) 0

/-- Model of `decimal.Decimal(s)` on the numeric-string grammar
`[+|-] digits [. digits]` (at least one digit overall), which covers
everything `str()` of a JSON number or a plain decimal string produces.
Returns `none` when the constructor would raise `InvalidOperation`.
Negative strings such as `"-5"` parse successfully, exactly as in
Python. -/
def parseDecimal (s : String) : Option ℚ :=
  let cs := s.toList
  let signBody : Int × List Char :=
    match cs with
    | '-' :: rest => (-1, rest)
    | '+' :: rest => (1, rest)
    | _ => (1, cs)
  let sign := signBody.1
  match signBody.2.splitOn '.' with
  | [intPart] =>
      if intPart.isEmpty then none
      else (digitsToNat intPart).map fun n => ((sign * n : Int) : ℚ)
  | [intPart, fracPart] =>
      if intPart.isEmpty ∧ fracPart.isEmpty then none
      else
        match digitsToNat intPart, digitsToNat fracPart with
        | some n, some f =>
            some (Rat.divInt (sign * ((n : Int) * 10 ^ fracPart.length + (f : Int)))
              ((10 : Int) ^ fracPart.length))
        | _, _ => none
  | _ => none

/-- The in-code pickup placeholder address (`payment.py` line 103). -/
def pickupPlaceholder : String := "Pickup at Dynamic Mall, Shop M90, CBD, Nairobi"

/-- `user.address if user and user.address else placeholder`. -/
def shippingAddressFor (db : DB) (userId : String) : String :=
  match db.users.find? fun u => u.id == userId with
  | some u =>
      match u.address with
      | some a => if a == "" then pickupPlaceholder else a
      | none => pickupPlaceholder
  | none => pickupPlaceholder

/-- `artwork.stock_quantity -= item_quantity` applied to the (unique) row
with the locked artwork id. -/
def decStock (arts : List Artwork) (awId : String) (q : Int) : List Artwork :=
  arts.map fun a => if a.id == awId then { a with stock_quantity := a.stock_quantity - q } else a

/-- The per-item loop of the materialization block (`payment.py` lines
124-144): for each snapshot item, lock and load the artwork row, raise
`ValueError` if missing or short of stock, otherwise decrement stock and
build the `OrderItem`.  Returns the updated artwork table and the order
items, or the `ValueError` message. -/
def materializeItems (orderId : String) (arts : List Artwork) :
    List SnapshotItem → Except String (List Artwork × List OrderItem)
  | [] => .ok (arts, [])
  | it :: rest =>
    match arts.find? fun a => a.id == it.artwork_id with
    | none => .error ("Artwork ID " ++ it.artwork_id ++ " not found.")
    | some aw =>
      if aw.stock_quantity < it.quantity then
        .error ("Insufficient stock for " ++ aw.name ++ " (ID: " ++ aw.id ++
          "). Available: " ++ toString aw.stock_quantity ++
          ", Requested: " ++ toString it.quantity ++ ".")
      else
        match materializeItems orderId (decStock arts aw.id it.quantity) rest with
        | .error e => .error e
        | .ok (arts2, ois) =>
            .ok (arts2, { order_id := orderId, artwork_id := it.artwork_id,
                          quantity := it.quantity,
                          price_at_purchase := it.price_at_purchase } :: ois)

/-- The order-materialization block of the success branch (`payment.py`
lines 101-155, up to but not including the final commit): create the
`Order` row, run the per-item loop, clear the cart when the transaction
still references one, and set the transaction `successful`.  Any
`ValueError` aborts the whole unit (nothing of the working state is
returned).  `txn` is the session transaction, already carrying the
callback's `ResultDesc` (line 58). -/
def materializeOrder (db : DB) (txn : PaymentTransaction) (receipt : String)
    (orderId : String) : Except String DB :=
  let addr := shippingAddressFor db txn.user_id
  match txn.cart_items_snapshot with
  | none => .error "Cart items snapshot missing for order creation."
  | some items =>
    if items.isEmpty then .error "Cart items snapshot missing for order creation."
    else
      let newOrder : Order :=
        { id := orderId, user_id := txn.user_id, total_price := txn.amount,
          status := "paid", shipping_address := some addr, billing_address := some addr,
          payment_gateway_ref := some receipt, delivery_option_id := none,
          delivery_fee := 0, payment_transaction_id := some txn.id }
      match materializeItems orderId db.artworks items with
      | .error e => .error e
      | .ok (arts2, ois) =>
          let cartItems2 :=
            match txn.cart_id with
            | some cid => db.cartItems.filter fun ci => ¬ ci.cart_id == cid
            | none => db.cartItems
          let txn2 := { txn with status := "successful" }
          let db1 := db.updateTxn txn2
          .ok { db1 with artworks := arts2, orders := db1.orders ++ [newOrder],
                         orderItems := db1.orderItems ++ ois, cartItems := cartItems2 }

/-- The Daraja callback payload after JSON decoding, reduced to the fields
the handler reads.  `hasBody` is `'Body' in data and 'stkCallback' in
data['Body']`; `amountItem` is `str(metadata['Amount'])` when a
`CallbackMetadata` item with that `Name` and a `Value` is present (the
handler substitutes `"0.00"` otherwise); `receiptItem` is the
`MpesaReceiptNumber` metadata value. -/
structure CallbackPayload where
  hasBody : Bool
  resultCode : Option Int
  checkoutRequestID : Option String
  resultDesc : Option String
  amountItem : Option String
  receiptItem : Option String
  deriving Repr, DecidableEq

/-- The three entry shapes of `DarajaCallback.post`: a body that fails
JSON parsing, an empty decoded body, or a decoded payload. -/
inductive CallbackInput where
  | invalidJson
  | emptyBody
  | payload (p : CallbackPayload)
  deriving Repr, DecidableEq

/-- The HTTP response of the handler: the JSON `ResultCode` and
`ResultDesc` plus the HTTP status. -/
structure Response where
  resultCode : Int
  resultDesc : String
  httpStatus : Nat
  deriving Repr, DecidableEq

/-- Result of one `DarajaCallback.post` request: the committed database,
the response (`none` when an exception escaped the handler, which the
framework turns into an HTTP 500, not the fixed acknowledgment), and the
committed status writes. -/
structure CallbackOutcome where
  db : DB
  response : Option Response
  writes : List StatusWrite
  deriving Repr, DecidableEq

/-- `str(stk_callback.get('ResultCode', '-1'))`. -/
def rcString (p : CallbackPayload) : String :=
  match p.resultCode with
  | some n => toString n
  | none => "-1"

/-- `transaction.status = s; db.session.commit()` wrapped in
`try/except` with `db.session.rollback()` in the handler: on commit
failure the session is rolled back and the committed state is unchanged.
`old` is the committed row, `txn2` the mutated session row. -/
def commitStatusTry (db : DB) (old txn2 : PaymentTransaction) (commitOk : Bool) :
    DB × List StatusWrite :=
  if commitOk then (db.updateTxn txn2, [{ txn_id := txn2.id, prev := some old.status, next := txn2.status }])
  else (db, [])

/-- `DarajaCallback.post` (`payment.py` lines 15-204).  `commitOk` models
whether `db.session.commit()` succeeds during this request; `orderId` is
the fresh primary key the database assigns to a new `Order` row at
flush. -/
def handleCallback (db : DB) (commitOk : Bool) (orderId : String) :
    CallbackInput → CallbackOutcome
  | .invalidJson => ⟨db, some ⟨0, "Accepted invalid JSON", 200⟩, []⟩
  | .emptyBody => ⟨db, some ⟨0, "Accepted empty body", 200⟩, []⟩
  | .payload p =>
    if ¬ p.hasBody then ⟨db, some ⟨0, "Accepted format error", 200⟩, []⟩
    else
      let rc := rcString p
      let desc := p.resultDesc.getD "No ResultDesc from Daraja."
      if strMissing p.checkoutRequestID then
        ⟨db, some ⟨0, "Accepted missing CheckoutRequestID", 200⟩, []⟩
      else
        let crid := p.checkoutRequestID.getD ""
        match db.findTxnByCrid crid with
        | none => ⟨db, some ⟨0, "Accepted, transaction not found by CRID", 200⟩, []⟩
        | some txn =>
          if txn.status ∈ finalStates then
            ⟨db, some ⟨0, "Accepted, already processed", 200⟩, []⟩
          else
            let txn1 := { txn with daraja_response_description := some desc }
            if rc == "0" then
              let amountStr := p.amountItem.getD "0.00"
              if strMissing p.receiptItem then
                let txn2 := { txn1 with
                              status := "failed_missing_receipt",
                              daraja_response_description :=
                                some "MpesaReceiptNumber missing from successful Daraja callback." }
                let dw := commitStatusTry db txn txn2 commitOk
                ⟨dw.1, some ⟨0, "Accepted, MpesaReceiptNumber missing", 200⟩, dw.2⟩
              else
                let receipt := p.receiptItem.getD ""
                match parseDecimal amountStr with
                | none =>
                  let txn2 := { txn1 with
                                status := "failed_processing_error",
                                daraja_response_description :=
                                  some ("Invalid amount format from Daraja: " ++ amountStr) }
                  let dw := commitStatusTry db txn txn2 commitOk
                  ⟨dw.1, some ⟨0, "Accepted, invalid amount format", 200⟩, dw.2⟩
                | some amt =>
                  if amt < txn.amount then
                    let txn2 := { txn1 with status := "failed_underpaid" }
                    if commitOk then
                      ⟨db.updateTxn txn2, some ⟨0, "Accepted", 200⟩,
                       [{ txn_id := txn.id, prev := some txn.status, next := "failed_underpaid" }]⟩
                    else
                      -- `payment.py` line 99: this commit is not wrapped in
                      -- try/except, so a commit failure propagates out of post()
                      ⟨db, none, []⟩
                  else
                    match materializeOrder db txn1 receipt orderId with
                    | .ok dbM =>
                      if commitOk then
                        ⟨dbM, some ⟨0, "Accepted", 200⟩,
                         [{ txn_id := txn.id, prev := some txn.status, next := "successful" }]⟩
                      else
                        -- the commit raises into `except Exception`: rollback, then
                        -- the attempt to commit failed_processing_error fails too
                        -- and is rolled back; control reaches the final ack
                        ⟨db, some ⟨0, "Accepted", 200⟩, []⟩
                    | .error ve =>
                      -- `except ValueError`: rollback, re-fetch the committed row,
                      -- mark it failed_processing_error with the failure reason
                      let dw : DB × List StatusWrite :=
                        match db.findTxnById txn.id with
                        | some t0 =>
                          let t2 := { t0 with
                                      status := "failed_processing_error",
                                      daraja_response_description :=
                                        some ("Order Creation Error: " ++ ve) }
                          commitStatusTry db t0 t2 commitOk
                        | none => (db, [])
                      ⟨dw.1, some ⟨0, "Accepted", 200⟩, dw.2⟩
            else
              let st := if rc == "1" then "cancelled_by_user"
                        else if rc == "1032" then "cancelled_by_user"
                        else if rc == "1037" then "failed_timeout"
                        else "failed_daraja"
              let txn2 := { txn1 with status := st }
              let dw := commitStatusTry db txn txn2 commitOk
              ⟨dw.1, some ⟨0, "Accepted", 200⟩, dw.2⟩

/-- The JSON body of the checkout request, reduced to the two fields the
`CheckoutInputSchema` reads. -/
structure RawCheckout where
  phone_number : Option String
  delivery_option_id : Option String
  deriving Repr, DecidableEq

/-- The schema regexp `^254\d{9}$`: twelve digits starting with 254. -/
def phoneValid (s : String) : Bool :=
  s.toList.length == 12 && s.toList.take 3 == ['2', '5', '4'] && s.toList.all Char.isDigit

/-- The fields of the `initiate_stk_push` response that `OrderList.post`
reads.  `responseCode` is the value of `ResponseCode` after `str()`. -/
structure StkResponse where
  responseCode : Option String
  checkoutRequestID : Option String
  responseDescription : Option String
  errorMessage : Option String
  deriving Repr, DecidableEq

/-- The `(stk_response, status_code)` pair returned by
`initiate_stk_push`, which this embedding treats as an external
collaborator and therefore takes as an input. -/
structure StkResult where
  response : StkResponse
  statusCode : Nat
  deriving Repr, DecidableEq

/-- Result of one `OrderList.post` checkout-initiation request. -/
structure CheckoutOutcome where
  db : DB
  httpStatus : Nat
  aborted : Bool
  message : String
  writes : List StatusWrite
  deriving Repr, DecidableEq

/-- `cart.items`: the `CartItem` rows of a cart. -/
def cartItemsOf (db : DB) (cartId : String) : List CartItem :=
  db.cartItems.filter fun ci => ci.cart_id == cartId

/-- The per-item validation and pricing loop of `OrderList.post` (lines
79-100): for each cart item check the artwork exists, is active, has an
active artist and enough stock; accumulate the subtotal and the frozen
snapshot entry (price taken from the live artwork row).  An `abort`
carries the HTTP code and message. -/
def priceCartItems (db : DB) : List CartItem → Except (Nat × String) (ℚ × List SnapshotItem)
  | [] => .ok (0, [])
  | it :: rest =>
    match db.artworks.find? fun a => a.id == it.artwork_id with
    | none => .error (500, "Error processing cart. An artwork is missing details.")
    | some aw =>
      if ¬ aw.is_active then
        .error (400, "Artwork " ++ aw.name ++ " is no longer active and cannot be purchased.")
      else
        match db.artists.find? fun ar => ar.id == aw.artist_id with
        | none => .error (500, "Artist details missing for " ++ aw.name ++ ". Cannot proceed with checkout.")
        | some ar =>
          if ¬ ar.is_active then
            .error (400, "The artist of " ++ aw.name ++ " is no longer active. This artwork cannot be purchased.")
          else if aw.stock_quantity < it.quantity then
            .error (400, "Insufficient stock for " ++ aw.name ++ ". Available: " ++
              toString aw.stock_quantity ++ ", Requested: " ++ toString it.quantity ++
              ". Please update your cart.")
          else
            match priceCartItems db rest with
            | .error e => .error e
            | .ok (sub, snaps) =>
                .ok (qadd (qmul aw.price (it.quantity : ℚ)) sub,
                     { artwork_id := aw.id, name := aw.name, quantity := it.quantity,
                       price_at_purchase := aw.price } :: snaps)

/-- `OrderList.post` (`order.py` lines 44-166): validate the request,
price the cart, freeze the snapshot, create the `PaymentTransaction`,
call the gateway (whose reply `stk` is an input) and record its result.
The transaction-creation commit (lines 119-126) is modelled as
succeeding; its failure path only rolls back and aborts with 500 and is
not touched by any claim.  `freshTxnId` is the UUID the model assigns to
the new row. -/
def checkout (db : DB) (userId : String) (jsonData : Option RawCheckout)
    (stk : StkResult) (freshTxnId : String) : CheckoutOutcome :=
  match db.users.find? fun u => u.id == userId with
  | none => ⟨db, 401, true, "User not found or invalid token.", []⟩
  | some _ =>
    match jsonData with
    | none => ⟨db, 400, true, "Missing checkout data (e.g., phone_number, delivery_option_id).", []⟩
    | some raw =>
      match raw.phone_number, raw.delivery_option_id with
      | some phone, some doid =>
        if ¬ phoneValid phone then
          ⟨db, 400, true, "Phone number must be 12 digits and start with 254 (e.g., 2547XXXXXXXX).", []⟩
        else
          match db.carts.find? fun c => c.user_id == userId with
          | none => ⟨db, 400, true, "Your cart is empty.", []⟩
          | some cart =>
            let items := cartItemsOf db cart.id
            if items.isEmpty then ⟨db, 400, true, "Your cart is empty.", []⟩
            else
              match db.deliveryOptions.find? fun d => d.id == doid with
              | none => ⟨db, 400, true, "Invalid or inactive delivery option selected.", []⟩
              | some dopt =>
                if ¬ dopt.active then
                  ⟨db, 400, true, "Invalid or inactive delivery option selected.", []⟩
                else
                  match priceCartItems db items with
                  | .error cm => ⟨db, cm.1, true, cm.2, []⟩
                  | .ok (subtotal, snaps) =>
                    if subtotal < 0 then
                      ⟨db, 400, true, "Cart subtotal cannot be negative.", []⟩
                    else
                      let total := qadd subtotal dopt.price
                      if total ≤ 0 then
                        ⟨db, 400, true, "Total amount for payment (including delivery) must be greater than zero.", []⟩
                      else
                        let txn : PaymentTransaction :=
                          { id := freshTxnId, checkout_request_id := none, user_id := userId,
                            cart_id := some cart.id, amount := total, phone_number := some phone,
                            status := "pending_stk_initiation", daraja_response_description := none,
                            cart_items_snapshot := some snaps,
                            selected_delivery_option_id := some doid,
                            applied_delivery_fee := some dopt.price }
                        let db1 : DB := { db with transactions := db.transactions ++ [txn] }
                        let w0 : StatusWrite :=
                          { txn_id := freshTxnId, prev := none, next := "pending_stk_initiation" }
                        if stk.statusCode ≥ 400 ∨ stk.response.responseCode.getD "1" ≠ "0" then
                          let errorMsg := stk.response.errorMessage.getD
                            (stk.response.responseDescription.getD "Failed to initiate STK push.")
                          let txn2 := { txn with
                                        status := "failed_stk_initiation",
                                        daraja_response_description := some errorMsg }
                          ⟨db1.updateTxn txn2,
                           if stk.statusCode ≥ 400 then stk.statusCode else 500, true, errorMsg,
                           [w0, { txn_id := freshTxnId, prev := some "pending_stk_initiation",
                                  next := "failed_stk_initiation" }]⟩
                        else if strMissing stk.response.checkoutRequestID then
                          let txn2 := { txn with
                                        status := "failed_stk_missing_id",
                                        daraja_response_description :=
                                          some "CheckoutRequestID missing from Daraja response." }
                          ⟨db1.updateTxn txn2, 500, true,
                           "Payment initiation incomplete. Please contact support if debited.",
                           [w0, { txn_id := freshTxnId, prev := some "pending_stk_initiation",
                                  next := "failed_stk_missing_id" }]⟩
                        else
                          let txn2 := { txn with
                                        checkout_request_id := stk.response.checkoutRequestID,
                                        status := "pending_confirmation",
                                        daraja_response_description := stk.response.responseDescription }
                          ⟨db1.updateTxn txn2, 200, false,
                           "STK Push initiated successfully. Please check your phone to authorize payment.",
                           [w0, { txn_id := freshTxnId, prev := some "pending_stk_initiation",
                                  next := "pending_confirmation" }]⟩
      | _, _ => ⟨db, 400, true, "Missing required checkout fields.", []⟩

/-- Value of a snapshot: sum of unit price times quantity. -/
def snapSum (items : List SnapshotItem) : ℚ :=
  items.foldr (fun it s => it.price_at_purchase * (it.quantity : ℚ) + s) 0

/-- Value of a list of order items: sum of price-at-purchase times
quantity. -/
def oiSum (ois : List OrderItem) : ℚ :=
  ois.foldr (fun oi s => oi.price_at_purchase * (oi.quantity : ℚ) + s) 0

/-- The extended state diagram: section 4.1's edges plus the
`failed_stk_missing_id` terminal state written by `order.py` line 149.
`prev = none` is row creation. -/
def specEdgeAllowed (w : StatusWrite) : Bool :=
  match w.prev with
  | none => w.next == "pending_stk_initiation"
  | some prev =>
    if prev == "pending_stk_initiation" then
      w.next == "failed_stk_initiation" || w.next == "failed_stk_missing_id" ||
        w.next == "pending_confirmation"
    else if prev == "pending_confirmation" then finalStates.contains w.next
    else false

/-! ## Concrete fixtures

A small database mirroring the end-to-end scenario of the spec (two cart
items, qty 1 at 1000 and qty 2 at 500, delivery fee 200, total 2200),
used by the witness and counterexample theorems. -/

/-- Fixture user. -/
def u1 : User := { id := "u1", address := some "Addr 1" }

/-- Fixture artist. -/
def ar1 : Artist := { id := "a1", is_active := true }

/-- Fixture artwork, one unit in stock. -/
def w1 : Artwork :=
  { id := "w1", name := "Art One", price := 1000, stock_quantity := 1,
    is_active := true, artist_id := "a1" }

/-- Fixture artwork, five units in stock. -/
def w2 : Artwork :=
  { id := "w2", name := "Art Two", price := 500, stock_quantity := 5,
    is_active := true, artist_id := "a1" }

/-- Fixture delivery option, fee 200. -/
def d1 : DeliveryOption := { id := "d1", price := 200, active := true }

/-- Fixture snapshot: qty 1 at 1000 and qty 2 at 500. -/
def snap1 : List SnapshotItem :=
  [{ artwork_id := "w1", name := "Art One", quantity := 1, price_at_purchase := 1000 },
   { artwork_id := "w2", name := "Art Two", quantity := 2, price_at_purchase := 500 }]

/-- Fixture pending transaction awaiting its callback (amount
1*1000 + 2*500 + 200 = 2200). -/
def t1 : PaymentTransaction :=
  { id := "t1", checkout_request_id := some "cr1", user_id := "u1", cart_id := some "c1",
    amount := 2200, phone_number := some "254700000001", status := "pending_confirmation",
    daraja_response_description := none, cart_items_snapshot := some snap1,
    selected_delivery_option_id := some "d1", applied_delivery_fee := some 200 }

/-- Fixture database. -/
def db0 : DB :=
  { users := [u1], artists := [ar1], artworks := [w1, w2],
    carts := [{ id := "c1", user_id := "u1" }],
    cartItems := [{ cart_id := "c1", artwork_id := "w1", quantity := 1 },
                  { cart_id := "c1", artwork_id := "w2", quantity := 2 }],
    orders := [], orderItems := [], transactions := [t1], deliveryOptions := [d1] }

/-- Fixture success callback, paid in full with a receipt. -/
def okPayload : CallbackPayload :=
  { hasBody := true, resultCode := some 0, checkoutRequestID := some "cr1",
    resultDesc := some "The service request is processed successfully.",
    amountItem := some "2200", receiptItem := some "RCPT1" }

/-- Fixture success callback that underpays (100 < 2200). -/
def underPayload : CallbackPayload := { okPayload with amountItem := some "100" }

/-- Fixture success callback with a parseable negative amount. -/
def negPayload : CallbackPayload := { okPayload with amountItem := some "-5.00" }

/-- Fixture success callback with an unparseable amount. -/
def badAmtPayload : CallbackPayload := { okPayload with amountItem := some "abc" }

/-- Fixture gateway reply: accepted (`ResponseCode "0"`, HTTP 200) but
with no `CheckoutRequestID`. -/
def stkNoCrid : StkResult :=
  { response := { responseCode := some "0", checkoutRequestID := none,
                  responseDescription := some "Accepted", errorMessage := none },
    statusCode := 200 }

/-- Fixture checkout body. -/
def rawOk : RawCheckout :=
  { phone_number := some "254700000001", delivery_option_id := some "d1" }

/-- Fixture checkout body with a malformed phone number. -/
def rawBadPhone : RawCheckout :=
  { phone_number := some "123", delivery_option_id := some "d1" }

/-- Fixture artwork with a single unit left, raced over by `tA`/`tB`. -/
def wR : Artwork :=
  { id := "wr", name := "Last Unit", price := 700, stock_quantity := 1,
    is_active := true, artist_id := "a1" }

/-- Fixture snapshot demanding the last unit. -/
def snapR : List SnapshotItem :=
  [{ artwork_id := "wr", name := "Last Unit", quantity := 1, price_at_purchase := 700 }]

/-- First racing transaction. -/
def tA : PaymentTransaction :=
  { id := "tA", checkout_request_id := some "crA", user_id := "u1", cart_id := none,
    amount := 700, phone_number := some "254700000001", status := "pending_confirmation",
    daraja_response_description := none, cart_items_snapshot := some snapR,
    selected_delivery_option_id := none, applied_delivery_fee := some 0 }

/-- Second racing transaction, same snapshot. -/
def tB : PaymentTransaction := { tA with id := "tB", checkout_request_id := some "crB" }

/-- Fixture database for the last-unit race. -/
def dbR : DB :=
  { users := [u1], artists := [ar1], artworks := [wR], carts := [], cartItems := [],
    orders := [], orderItems := [], transactions := [tA, tB], deliveryOptions := [] }

/-- Success callback for `tA`. -/
def pA : CallbackPayload :=
  { hasBody := true, resultCode := some 0, checkoutRequestID := some "crA",
    resultDesc := some "ok", amountItem := some "700", receiptItem := some "RA" }

/-- Success callback for `tB`. -/
def pB : CallbackPayload := { pA with checkoutRequestID := some "crB", receiptItem := some "RB" }

/-- The state after both racing callbacks have been processed (the row
lock serializes the two materializations; the model runs them in
sequence). -/
def raceOut : CallbackOutcome :=
  handleCallback (handleCallback dbR true "oA" (.payload pA)).db true "oB" (.payload pB)

/-- The ten transaction states enumerated in section 4.1 of the spec. -/
def spec41States : List String :=
  ["pending_stk_initiation", "failed_stk_initiation", "pending_confirmation",
   "successful", "cancelled_by_user", "failed_daraja", "failed_timeout",
   "failed_underpaid", "failed_missing_receipt", "failed_processing_error"]

/-! ## Theorems -/

/-- `qadd` is ordinary addition on `ℚ`. -/
theorem qadd_eq (a b : ℚ) : qadd a b = a + b := by
  rw [qadd, Rat.divInt_eq_div]
  conv_rhs => rw [← Rat.num_div_den a, ← Rat.num_div_den b]
  have ha : ((a.den : ℤ) : ℚ) ≠ 0 := by exact_mod_cast a.den_nz
  have hb : ((b.den : ℤ) : ℚ) ≠ 0 := by exact_mod_cast b.den_nz
  push_cast
  field_simp

/-- `qmul` is ordinary multiplication on `ℚ`. -/
theorem qmul_eq (a b : ℚ) : qmul a b = a * b := by
  rw [qmul, Rat.divInt_eq_div]
  conv_rhs => rw [← Rat.num_div_den a, ← Rat.num_div_den b]
  have ha : ((a.den : ℤ) : ℚ) ≠ 0 := by exact_mod_cast a.den_nz
  have hb : ((b.den : ℤ) : ℚ) ≠ 0 := by exact_mod_cast b.den_nz
  push_cast
  field_simp


/-- C1: terminal-state latch.  When the callback handler finds the
transaction for the payload's correlation id and that transaction is
already in a terminal state, the request is a pure no-op: the committed
database is returned unchanged (no transaction field, order, stock or
cart change), no status is written, and the handler acknowledges receipt
with the fixed success response — so a terminal status can never change
again, however often an identical callback is re-delivered. -/
theorem callback_terminal_latch (db : DB) (commitOk : Bool) (oid : String)
    (p : CallbackPayload) (txn : PaymentTransaction)
    (hBody : p.hasBody = true)
    (hcrid : strMissing p.checkoutRequestID = false)
    (hfind : db.findTxnByCrid (p.checkoutRequestID.getD "") = some txn)
    (hterm : txn.status ∈ finalStates) :
    handleCallback db commitOk oid (.payload p) =
      ⟨db, some ⟨0, "Accepted, already processed", 200⟩, []⟩ := by
  unfold handleCallback
  simp [hBody, hcrid, hfind, hterm]

/-- Witness for C1: a duplicate success callback for an already
`successful` transaction leaves the database untouched. -/
theorem callback_terminal_latch_witness :
    handleCallback (db0.updateTxn { t1 with status := "successful" }) true "o1"
        (.payload okPayload) =
      ⟨db0.updateTxn { t1 with status := "successful" },
       some ⟨0, "Accepted, already processed", 200⟩, []⟩ :=
  callback_terminal_latch (db0.updateTxn { t1 with status := "successful" }) true "o1"
    okPayload { t1 with status := "successful" }
    (by decide) (by decide) (by decide) (by decide)

/-- C7: underpayment rejection.  A success-coded callback for a
non-terminal transaction whose parsed paid amount is strictly below the
recorded amount drives the transaction to `failed_underpaid`; the only
change to the database is that transaction's row — no Order or OrderItem
appears, no stock moves, and the cart is untouched. -/
theorem callback_underpaid (db : DB) (oid : String) (p : CallbackPayload)
    (txn : PaymentTransaction) (amt : ℚ)
    (hBody : p.hasBody = true)
    (hrc : rcString p = "0")
    (hcrid : strMissing p.checkoutRequestID = false)
    (hfind : db.findTxnByCrid (p.checkoutRequestID.getD "") = some txn)
    (hnt : txn.status ∉ finalStates)
    (hrcpt : strMissing p.receiptItem = false)
    (hparse : parseDecimal (p.amountItem.getD "0.00") = some amt)
    (hlt : amt < txn.amount) :
    handleCallback db true oid (.payload p) =
      ⟨db.updateTxn { txn with
                      daraja_response_description :=
                        some (p.resultDesc.getD "No ResultDesc from Daraja."),
                      status := "failed_underpaid" },
       some ⟨0, "Accepted", 200⟩,
       [{ txn_id := txn.id, prev := some txn.status, next := "failed_underpaid" }]⟩ ∧
    (handleCallback db true oid (.payload p)).db.orders = db.orders ∧
    (handleCallback db true oid (.payload p)).db.orderItems = db.orderItems ∧
    (handleCallback db true oid (.payload p)).db.artworks = db.artworks ∧
    (handleCallback db true oid (.payload p)).db.cartItems = db.cartItems := by
  unfold handleCallback
  simp [hBody, hrc, hcrid, hfind, hnt, hrcpt, hparse, hlt, DB.updateTxn]

/-- Witness for C7: the callback reporting 100 paid against the 2200
transaction leaves `failed_underpaid` and creates nothing. -/
theorem callback_underpaid_witness :
    (handleCallback db0 true "o1" (.payload underPayload)).response =
      some ⟨0, "Accepted", 200⟩ ∧
    ((handleCallback db0 true "o1" (.payload underPayload)).db.findTxnById "t1").map
      (fun t => t.status) = some "failed_underpaid" ∧
    (handleCallback db0 true "o1" (.payload underPayload)).db.orders = db0.orders := by
  have h := callback_underpaid db0 "o1" underPayload t1 100
    (by decide) (by decide) (by decide) (by decide) (by decide) (by decide)
    (by decide) (by decide)
  refine ⟨by rw [h.1], by rw [h.1]; decide, h.2.1⟩

/-- C5 (bug exhibit): the underpaid branch's commit (`payment.py` line
99) is the one commit in the handler not wrapped in try/except, so when
that commit fails the exception escapes `post()` and the gateway does not
receive the fixed success acknowledgment (`response = none` in the
model), while e.g. the invalid-amount branch swallows the same commit
failure and still acknowledges. -/
theorem callback_ack_commit_bug :
    (handleCallback db0 false "o1" (.payload underPayload)).response = none ∧
    (handleCallback db0 false "o1" (.payload badAmtPayload)).response =
      some ⟨0, "Accepted, invalid amount format", 200⟩ :=
  ⟨rfl, rfl⟩

/-- Counterexample for C8: the claim demands `failed_processing_error`
for any amount that is not a valid **non-negative** decimal, but
`Decimal("-5.00")` parses successfully in the code, so a negative paid
amount falls through to the underpayment comparison and yields
`failed_underpaid`, not `failed_processing_error`. -/
theorem callback_negative_amount_counterexample :
    parseDecimal "-5.00" = some (-5) ∧
    ((handleCallback db0 true "o1" (.payload negPayload)).db.findTxnById "t1").map
      (fun t => t.status) = some "failed_underpaid" ∧
    ((handleCallback db0 true "o1" (.payload negPayload)).db.findTxnById "t1").map
        (fun t => t.status) ≠ some "failed_processing_error" := by
  decide

/-- C8 as amended: when the reported amount string cannot be parsed as a
decimal at all, the transaction is set to `failed_processing_error` (with
the offending string recorded) and no Order is created; a parseable
negative amount instead reaches the underpayment check. -/
theorem callback_invalid_amount (db : DB) (oid : String) (p : CallbackPayload)
    (txn : PaymentTransaction)
    (hBody : p.hasBody = true)
    (hrc : rcString p = "0")
    (hcrid : strMissing p.checkoutRequestID = false)
    (hfind : db.findTxnByCrid (p.checkoutRequestID.getD "") = some txn)
    (hnt : txn.status ∉ finalStates)
    (hrcpt : strMissing p.receiptItem = false)
    (hparse : parseDecimal (p.amountItem.getD "0.00") = none) :
    handleCallback db true oid (.payload p) =
      ⟨db.updateTxn { txn with
                      status := "failed_processing_error",
                      daraja_response_description :=
                        some ("Invalid amount format from Daraja: " ++ p.amountItem.getD "0.00") },
       some ⟨0, "Accepted, invalid amount format", 200⟩,
       [{ txn_id := txn.id, prev := some txn.status, next := "failed_processing_error" }]⟩ ∧
    (handleCallback db true oid (.payload p)).db.orders = db.orders := by
  unfold handleCallback
  simp [hBody, hrc, hcrid, hfind, hnt, hrcpt, hparse, commitStatusTry, DB.updateTxn]

/-- Witness for C8's amended claim: amount string `"abc"` ends the
transaction in `failed_processing_error` and creates no order. -/
theorem callback_invalid_amount_witness :
    ((handleCallback db0 true "o1" (.payload badAmtPayload)).db.findTxnById "t1").map
      (fun t => t.status) = some "failed_processing_error" ∧
    (handleCallback db0 true "o1" (.payload badAmtPayload)).db.orders = db0.orders := by
  have h := callback_invalid_amount db0 "o1" badAmtPayload t1
    (by decide) (by decide) (by decide) (by decide) (by decide) (by decide) (by decide)
  refine ⟨by rw [h.1]; decide, h.2⟩

/-- Counterexample for C9: on a successful materialization the Order row
does **not** receive the transaction's delivery-option reference and
delivery fee — `payment.py` lines 110-118 never pass them, so the row
keeps the model defaults (`NULL` option, fee `0.00`) while the fixture
transaction carries option `d1` and fee 200. -/
theorem delivery_fields_counterexample :
    ((handleCallback db0 true "o1" (.payload okPayload)).db.orders.map
      (fun o => (o.delivery_option_id, o.delivery_fee))) = [(none, 0)] ∧
    t1.selected_delivery_option_id = some "d1" ∧
    t1.applied_delivery_fee = some 200 ∧
    ((none : Option String) ≠ some "d1" ∧ (0 : ℚ) ≠ 200) := by
  decide

/-- C9 as amended: every successful materialization appends exactly one
Order row with status `paid`, total equal to the transaction amount,
payment reference equal to the callback's receipt id, shipping and
billing addresses derived from the user's current profile (or the pickup
placeholder), and the back-reference to the transaction — but the
delivery-option reference and delivery fee are **not** copied from the
transaction: the row keeps the column defaults, no option and fee 0. -/
theorem callback_materialized_order (db : DB) (oid : String) (p : CallbackPayload)
    (txn : PaymentTransaction) (amt : ℚ) (items : List SnapshotItem)
    (arts2 : List Artwork) (ois : List OrderItem)
    (hBody : p.hasBody = true)
    (hrc : rcString p = "0")
    (hcrid : strMissing p.checkoutRequestID = false)
    (hfind : db.findTxnByCrid (p.checkoutRequestID.getD "") = some txn)
    (hnt : txn.status ∉ finalStates)
    (hrcpt : strMissing p.receiptItem = false)
    (hparse : parseDecimal (p.amountItem.getD "0.00") = some amt)
    (hge : ¬ amt < txn.amount)
    (hsnap : txn.cart_items_snapshot = some items)
    (hne : items.isEmpty = false)
    (hitems : materializeItems oid db.artworks items = .ok (arts2, ois)) :
    (handleCallback db true oid (.payload p)).db.orders =
      db.orders ++ [{ id := oid, user_id := txn.user_id, total_price := txn.amount,
                      status := "paid",
                      shipping_address := some (shippingAddressFor db txn.user_id),
                      billing_address := some (shippingAddressFor db txn.user_id),
                      payment_gateway_ref := some (p.receiptItem.getD ""),
                      delivery_option_id := none, delivery_fee := 0,
                      payment_transaction_id := some txn.id }] := by
  unfold handleCallback
  simp [hBody, hrc, hcrid, hfind, hnt, hrcpt, hparse, hge,
        materializeOrder, hsnap, hne, hitems, DB.updateTxn]

/-- Witness for C9's amended claim: the fixture callback materializes the
order with status `paid`, total 2200, receipt `RCPT1`, the user's address
and no delivery fields. -/
theorem callback_materialized_order_witness :
    (handleCallback db0 true "o1" (.payload okPayload)).db.orders =
      [{ id := "o1", user_id := "u1", total_price := 2200, status := "paid",
         shipping_address := some "Addr 1", billing_address := some "Addr 1",
         payment_gateway_ref := some "RCPT1", delivery_option_id := none,
         delivery_fee := 0, payment_transaction_id := some "t1" }] := by
  have h := callback_materialized_order db0 "o1" okPayload t1 2200 snap1
    [{ w1 with stock_quantity := 0 }, { w2 with stock_quantity := 3 }]
    [{ order_id := "o1", artwork_id := "w1", quantity := 1, price_at_purchase := 1000 },
     { order_id := "o1", artwork_id := "w2", quantity := 2, price_at_purchase := 500 }]
    (by decide) (by decide) (by decide) (by decide) (by decide) (by decide)
    (by decide) (by decide) (by decide) (by decide) (by rfl)
  rw [h]
  decide

/-- `decStock` does not change the id column. -/
theorem decStock_ids (arts : List Artwork) (awId : String) (q : Int) :
    ((decStock arts awId q).map fun a => a.id) = arts.map fun a => a.id := by
  unfold decStock
  rw [List.map_map]
  apply List.map_congr_left
  intro a _
  by_cases hc : a.id = awId <;> simp [hc]

/-- `decStock` keeps all stocks non-negative when the decremented row had
at least `q` in stock (ids unique, so only that row is touched). -/
theorem decStock_nonneg (arts : List Artwork) (aw : Artwork) (q : Int)
    (hn : (arts.map fun a => a.id).Nodup) (haw : aw ∈ arts)
    (hq : q ≤ aw.stock_quantity)
    (hnn : ∀ a ∈ arts, 0 ≤ a.stock_quantity) :
    ∀ a ∈ decStock arts aw.id q, 0 ≤ a.stock_quantity := by
  unfold decStock
  intro a ha
  rcases List.mem_map.mp ha with ⟨b, hb, rfl⟩
  by_cases hc : (b.id == aw.id) = true
  · have hbeq : b = aw := List.inj_on_of_nodup_map hn hb haw (beq_iff_eq.mp hc)
    subst hbeq
    simp only [hc, if_true]
    omega
  · simp only [hc, Bool.false_eq_true, if_false]
    exact hnn b hb

/-- The per-item loop never drives a stock below the requested quantity
it just checked: all artworks in its output keep non-negative stock,
provided artwork ids are unique (they are a primary key) and stocks were
non-negative to begin with. -/
theorem materializeItems_stock_nonneg (oid : String) (items : List SnapshotItem) :
    ∀ (arts arts2 : List Artwork) (ois : List OrderItem),
      materializeItems oid arts items = .ok (arts2, ois) →
      (arts.map fun a => a.id).Nodup →
      (∀ a ∈ arts, 0 ≤ a.stock_quantity) →
      ∀ a ∈ arts2, 0 ≤ a.stock_quantity := by
  induction items with
  | nil =>
    intro arts arts2 ois h _ hnn
    simp only [materializeItems, Except.ok.injEq, Prod.mk.injEq] at h
    exact h.1 ▸ hnn
  | cons it rest ih =>
    intro arts arts2 ois h hn hnn
    simp only [materializeItems] at h
    cases hf : arts.find? fun a => a.id == it.artwork_id with
    | none => simp [hf] at h
    | some aw =>
      simp only [hf] at h
      by_cases hlt : aw.stock_quantity < it.quantity
      · simp [hlt] at h
      · rw [if_neg hlt] at h
        cases hrec : materializeItems oid (decStock arts aw.id it.quantity) rest with
        | error e => simp [hrec] at h
        | ok pr =>
          obtain ⟨arts3, ois3⟩ := pr
          simp only [hrec, Except.ok.injEq, Prod.mk.injEq] at h
          have haw : aw ∈ arts := List.mem_of_find?_eq_some hf
          exact h.1 ▸ ih _ arts3 ois3 hrec
            (by rw [decStock_ids]; exact hn)
            (decStock_nonneg arts aw it.quantity hn haw (by omega) hnn)

/-- A successful run of the materialization block changes the artwork
table exactly as its per-item loop does. -/
theorem materializeOrder_artworks (db : DB) (txn : PaymentTransaction) (r oid : String)
    (dbM : DB) (h : materializeOrder db txn r oid = .ok dbM) :
    ∃ items ois, txn.cart_items_snapshot = some items ∧
      materializeItems oid db.artworks items = .ok (dbM.artworks, ois) := by
  unfold materializeOrder at h
  cases hs : txn.cart_items_snapshot with
  | none => simp [hs] at h
  | some items =>
    simp only [hs] at h
    by_cases he : items.isEmpty
    · simp [he] at h
    · rw [if_neg he] at h
      cases hm : materializeItems oid db.artworks items with
      | error e => simp [hm] at h
      | ok pr =>
        obtain ⟨arts2, ois2⟩ := pr
        simp only [hm, Except.ok.injEq] at h
        subst h
        exact ⟨items, ois2, rfl, hm⟩

/-- In every branch of the callback handler, the committed artwork table
is either unchanged or is the output of the per-item materialization loop
run on the entry state. -/
theorem handleCallback_artworks (db : DB) (commitOk : Bool) (oid : String)
    (input : CallbackInput) :
    (handleCallback db commitOk oid input).db.artworks = db.artworks ∨
    ∃ items ois, materializeItems oid db.artworks items =
      .ok ((handleCallback db commitOk oid input).db.artworks, ois) := by
  cases input with
  | invalidJson => left; rfl
  | emptyBody => left; rfl
  | payload p =>
    simp only [handleCallback]
    split
    next => left; rfl
    next =>
      split
      next => left; rfl
      next =>
        split
        next => left; rfl
        next txn hfind =>
          split
          next => left; rfl
          next =>
            split
            next =>
              split
              next => left; unfold commitStatusTry; split <;> rfl
              next =>
                split
                next => left; unfold commitStatusTry; split <;> rfl
                next amt hparse =>
                  split
                  next =>
                    split
                    next => left; rfl
                    next => left; rfl
                  next =>
                    split
                    next dbM hM =>
                      split
                      next =>
                        rcases materializeOrder_artworks _ _ _ _ _ hM with ⟨items, ois, _, hitems⟩
                        right
                        exact ⟨items, ois, hitems⟩
                      next => left; rfl
                    next ve hM =>
                      left
                      split
                      next t0 h0 => unfold commitStatusTry; split <;> rfl
                      next => rfl
            next =>
              left; unfold commitStatusTry; split <;> rfl

/-- C2: stock non-negativity.  First conjunct: from any database with
unique artwork ids and non-negative stocks, any callback leaves every
stock non-negative (the loop decrements only after re-verifying
`stock_quantity >= quantity` under the row lock).  Second conjunct: two
serialized materializations racing for the last unit — exactly one
transaction ends `successful`, the loser ends `failed_processing_error`
with the offending artwork named in the recorded reason, exactly one
order exists, and the final stock is exactly 0, never negative. -/
theorem stock_nonneg :
    (∀ (db : DB) (commitOk : Bool) (oid : String) (input : CallbackInput),
        (db.artworks.map fun a => a.id).Nodup →
        (∀ a ∈ db.artworks, 0 ≤ a.stock_quantity) →
        ∀ a ∈ (handleCallback db commitOk oid input).db.artworks, 0 ≤ a.stock_quantity) ∧
    ((raceOut.db.findTxnById "tA").map (fun t => t.status) = some "successful" ∧
     (raceOut.db.findTxnById "tB").map (fun t => t.status) = some "failed_processing_error" ∧
     (raceOut.db.findTxnById "tB").map (fun t => t.daraja_response_description) =
       some (some ("Order Creation Error: Insufficient stock for Last Unit (ID: wr). " ++
         "Available: 0, Requested: 1.")) ∧
     raceOut.db.artworks.map (fun a => a.stock_quantity) = [0] ∧
     raceOut.db.orders.length = 1) := by
  constructor
  · intro db commitOk oid input hn hnn a ha
    rcases handleCallback_artworks db commitOk oid input with heq | ⟨items, ois, hitems⟩
    · exact hnn a (heq ▸ ha)
    · exact materializeItems_stock_nonneg oid items db.artworks _ ois hitems hn hnn a ha
  · decide

/-- Witness for C2's universally quantified conjunct, instantiated on the
fixture database and success callback: the first artwork's stock after
materialization is non-negative. -/
theorem stock_nonneg_witness :
    (0 : Int) ≤ ({ w1 with stock_quantity := 0 } : Artwork).stock_quantity :=
  stock_nonneg.1 db0 true "o1" (.payload okPayload) (by decide) (by decide)
    { w1 with stock_quantity := 0 } (by decide)

/-- `snapSum` unfolds on cons. -/
theorem snapSum_cons (it : SnapshotItem) (rest : List SnapshotItem) :
    snapSum (it :: rest) = it.price_at_purchase * (it.quantity : ℚ) + snapSum rest := rfl

/-- `oiSum` unfolds on cons. -/
theorem oiSum_cons (oi : OrderItem) (rest : List OrderItem) :
    oiSum (oi :: rest) = oi.price_at_purchase * (oi.quantity : ℚ) + oiSum rest := rfl

/-- The checkout pricing loop returns exactly the value of the snapshot
it froze: the running subtotal equals the sum over the snapshot of unit
price times quantity. -/
theorem priceCartItems_sum (db : DB) (items : List CartItem) :
    ∀ sub snaps, priceCartItems db items = .ok (sub, snaps) → sub = snapSum snaps := by
  induction items with
  | nil =>
    intro sub snaps h
    simp only [priceCartItems, Except.ok.injEq, Prod.mk.injEq] at h
    rw [← h.1, ← h.2]
    rfl
  | cons it rest ih =>
    intro sub snaps h
    simp only [priceCartItems] at h
    cases hf : db.artworks.find? fun a => a.id == it.artwork_id with
    | none => simp [hf] at h
    | some aw =>
      simp only [hf] at h
      cases hact : aw.is_active with
      | false => simp [hact] at h
      | true =>
        simp only [hact] at h
        cases hfar : db.artists.find? fun ar => ar.id == aw.artist_id with
        | none => simp [hfar] at h
        | some ar =>
          simp only [hfar] at h
          cases haract : ar.is_active with
          | false => simp [haract] at h
          | true =>
            simp only [haract] at h
            by_cases hlt : aw.stock_quantity < it.quantity
            · simp [hlt] at h
            · simp only [hlt, if_false, not_false_eq_true, not_true, Bool.not_true,
                         ite_false, ite_true, if_true, if_neg, Bool.not_eq_true] at h
              cases hrec : priceCartItems db rest with
              | error e => simp [hrec] at h
              | ok pr =>
                obtain ⟨sub0, snaps0⟩ := pr
                simp only [hrec, Except.ok.injEq, Prod.mk.injEq] at h
                rw [← h.1, ← h.2, snapSum_cons, qadd_eq, qmul_eq, ih sub0 snaps0 hrec]

/-- Order items created by the per-item loop are snapshot copies: their
total value equals the snapshot's value. -/
theorem materializeItems_sum (oid : String) (items : List SnapshotItem) :
    ∀ arts arts2 ois, materializeItems oid arts items = .ok (arts2, ois) →
      oiSum ois = snapSum items := by
  induction items with
  | nil =>
    intro arts arts2 ois h
    simp only [materializeItems, Except.ok.injEq, Prod.mk.injEq] at h
    rw [← h.2]
    rfl
  | cons it rest ih =>
    intro arts arts2 ois h
    simp only [materializeItems] at h
    cases hf : arts.find? fun a => a.id == it.artwork_id with
    | none => simp [hf] at h
    | some aw =>
      simp only [hf] at h
      by_cases hlt : aw.stock_quantity < it.quantity
      · simp [hlt] at h
      · rw [if_neg hlt] at h
        cases hrec : materializeItems oid (decStock arts aw.id it.quantity) rest with
        | error e => simp [hrec] at h
        | ok pr =>
          obtain ⟨arts3, ois3⟩ := pr
          simp only [hrec, Except.ok.injEq, Prod.mk.injEq] at h
          rw [← h.2, oiSum_cons, snapSum_cons, ih _ arts3 ois3 hrec]

/-- C3: money conservation.  First conjunct: any transaction row present
after a checkout request either predates it or satisfies
`amount = sum(snapshot price x quantity) + applied delivery fee` — the
amount is computed once at creation from the frozen snapshot.  Second
conjunct: a successful materialization creates exactly one Order and its
OrderItems from the snapshot, with
`sum(quantity x price_at_purchase) + delivery fee = Order.total_price =
PaymentTransaction.amount`. -/
theorem money_conservation :
    (∀ (db : DB) (uid : String) (jd : Option RawCheckout) (stk : StkResult) (fid : String),
       ∀ txn ∈ (checkout db uid jd stk fid).db.transactions,
         txn ∈ db.transactions ∨
           txn.amount = snapSum (txn.cart_items_snapshot.getD []) +
             txn.applied_delivery_fee.getD 0) ∧
    (∀ (db : DB) (oid : String) (p : CallbackPayload) (txn : PaymentTransaction)
       (amt fee : ℚ) (items : List SnapshotItem) (arts2 : List Artwork) (ois : List OrderItem),
       p.hasBody = true → rcString p = "0" → strMissing p.checkoutRequestID = false →
       db.findTxnByCrid (p.checkoutRequestID.getD "") = some txn →
       txn.status ∉ finalStates → strMissing p.receiptItem = false →
       parseDecimal (p.amountItem.getD "0.00") = some amt → ¬ amt < txn.amount →
       txn.cart_items_snapshot = some items → items.isEmpty = false →
       materializeItems oid db.artworks items = .ok (arts2, ois) →
       txn.applied_delivery_fee = some fee →
       txn.amount = snapSum items + fee →
       ∃ o, (handleCallback db true oid (.payload p)).db.orders = db.orders ++ [o] ∧
         o.total_price = txn.amount ∧
         (handleCallback db true oid (.payload p)).db.orderItems = db.orderItems ++ ois ∧
         oiSum ois + fee = o.total_price) := by
  constructor
  · intro db uid jd stk fid txn htxn
    simp only [checkout] at htxn
    repeat'
      first
      | exact Or.inl htxn
      | split at htxn
    all_goals
      rename priceCartItems _ _ = Except.ok _ => hp
      rcases List.mem_map.mp htxn with ⟨u, hu, rfl⟩
      split
      next =>
        right
        simp only [Option.getD_some]
        rw [qadd_eq, priceCartItems_sum _ _ _ _ hp]
      next hcond =>
        left
        rcases List.mem_append.mp hu with h1 | h1
        · exact h1
        · rw [List.mem_singleton.mp h1] at hcond
          simp at hcond
  · intro db oid p txn amt fee items arts2 ois hBody hrc hcrid hfind hnt hrcpt hparse hge
      hsnap hne hitems hfee hamt
    refine ⟨{ id := oid, user_id := txn.user_id, total_price := txn.amount,
              status := "paid",
              shipping_address := some (shippingAddressFor db txn.user_id),
              billing_address := some (shippingAddressFor db txn.user_id),
              payment_gateway_ref := some (p.receiptItem.getD ""),
              delivery_option_id := none, delivery_fee := 0,
              payment_transaction_id := some txn.id }, ?_, rfl, ?_, ?_⟩
    · unfold handleCallback
      simp [hBody, hrc, hcrid, hfind, hnt, hrcpt, hparse, hge,
            materializeOrder, hsnap, hne, hitems, DB.updateTxn]
    · unfold handleCallback
      simp [hBody, hrc, hcrid, hfind, hnt, hrcpt, hparse, hge,
            materializeOrder, hsnap, hne, hitems, DB.updateTxn]
    · rw [materializeItems_sum oid items db.artworks arts2 ois hitems, ← hamt]

/-- Witness for C3: on the fixture run, the new transaction `t9` created
by checkout satisfies the amount invariant, and the fixture callback
materializes an order whose items sum to the transaction amount minus the
delivery fee. -/
theorem money_conservation_witness :
    (({ id := "t9", checkout_request_id := some "cr9", user_id := "u1",
        cart_id := some "c1", amount := 2200, phone_number := some "254700000001",
        status := "pending_confirmation",
        daraja_response_description := some "ok",
        cart_items_snapshot := some snap1, selected_delivery_option_id := some "d1",
        applied_delivery_fee := some 200 } : PaymentTransaction) ∈ db0.transactions ∨
      (2200 : ℚ) = snapSum (some snap1 |>.getD []) + (some (200 : ℚ) |>.getD 0)) ∧
    oiSum [{ order_id := "o1", artwork_id := "w1", quantity := 1, price_at_purchase := 1000 },
           { order_id := "o1", artwork_id := "w2", quantity := 2, price_at_purchase := 500 }] +
      200 = (2200 : ℚ) := by
  constructor
  · have h := money_conservation.1 db0 "u1" (some rawOk)
      { response := { responseCode := some "0", checkoutRequestID := some "cr9",
                      responseDescription := some "ok", errorMessage := none },
        statusCode := 200 } "t9"
      { id := "t9", checkout_request_id := some "cr9", user_id := "u1",
        cart_id := some "c1", amount := 2200, phone_number := some "254700000001",
        status := "pending_confirmation",
        daraja_response_description := some "ok",
        cart_items_snapshot := some snap1, selected_delivery_option_id := some "d1",
        applied_delivery_fee := some 200 }
      (by decide)
    exact h
  · have h := money_conservation.2 db0 "o1" okPayload t1 2200 200 snap1
      [{ w1 with stock_quantity := 0 }, { w2 with stock_quantity := 3 }]
      [{ order_id := "o1", artwork_id := "w1", quantity := 1, price_at_purchase := 1000 },
       { order_id := "o1", artwork_id := "w2", quantity := 2, price_at_purchase := 500 }]
      (by decide) (by decide) (by decide) (by decide) (by decide) (by decide)
      (by decide) (by decide) (by decide) (by decide) (by rfl) (by decide)
      (by norm_num [t1, snap1, snapSum])
    rcases h with ⟨o, _, ho, _, hsum⟩
    rw [hsum, ho]
    rfl

/-- With unique ids (the primary key), `query.get` on a member's id
returns exactly that member. -/
theorem find_by_id_of_mem (l : List PaymentTransaction) (txn : PaymentTransaction)
    (hn : (l.map fun t => t.id).Nodup) (hmem : txn ∈ l) :
    l.find? (fun t => t.id == txn.id) = some txn := by
  induction l with
  | nil => cases hmem
  | cons t rest ih =>
    rw [List.map_cons, List.nodup_cons] at hn
    rcases List.mem_cons.mp hmem with rfl | hmem2
    · simp [List.find?]
    · have hne : t.id ≠ txn.id := fun he =>
        hn.1 (he ▸ List.mem_map_of_mem (fun t => t.id) hmem2)
      rw [List.find?_cons_of_neg _ (by simpa using hne)]
      exact ih hn.2 hmem2

/-- C4: materializer atomicity.  When any step of the materialization
block raises (missing artwork, failed stock re-check, missing snapshot),
the whole unit is rolled back: no Order row, no OrderItem rows, no stock
decrement and no CartItem deletion persist, and the transaction is
committed as `failed_processing_error` carrying the failure reason.  The
final conjunct shows a stock re-check failure names the offending artwork
(its name, id, available stock and requested quantity). -/
theorem callback_materialize_rollback (db : DB) (oid : String) (p : CallbackPayload)
    (txn : PaymentTransaction) (amt : ℚ) (ve : String)
    (hBody : p.hasBody = true)
    (hrc : rcString p = "0")
    (hcrid : strMissing p.checkoutRequestID = false)
    (hfind : db.findTxnByCrid (p.checkoutRequestID.getD "") = some txn)
    (hnt : txn.status ∉ finalStates)
    (hrcpt : strMissing p.receiptItem = false)
    (hparse : parseDecimal (p.amountItem.getD "0.00") = some amt)
    (hge : ¬ amt < txn.amount)
    (huniq : (db.transactions.map fun t => t.id).Nodup)
    (hM : materializeOrder db
        { txn with
          daraja_response_description := some (p.resultDesc.getD "No ResultDesc from Daraja.") }
        (p.receiptItem.getD "") oid = .error ve) :
    handleCallback db true oid (.payload p) =
      ⟨db.updateTxn { txn with
                      status := "failed_processing_error",
                      daraja_response_description :=
                        some ("Order Creation Error: " ++ ve) },
       some ⟨0, "Accepted", 200⟩,
       [{ txn_id := txn.id, prev := some txn.status, next := "failed_processing_error" }]⟩ ∧
    (handleCallback db true oid (.payload p)).db.orders = db.orders ∧
    (handleCallback db true oid (.payload p)).db.orderItems = db.orderItems ∧
    (handleCallback db true oid (.payload p)).db.artworks = db.artworks ∧
    (handleCallback db true oid (.payload p)).db.cartItems = db.cartItems ∧
    (∀ (oid2 : String) (arts : List Artwork) (it : SnapshotItem)
       (rest : List SnapshotItem) (aw : Artwork),
       arts.find? (fun a => a.id == it.artwork_id) = some aw →
       aw.stock_quantity < it.quantity →
       materializeItems oid2 arts (it :: rest) =
         .error ("Insufficient stock for " ++ aw.name ++ " (ID: " ++ aw.id ++
           "). Available: " ++ toString aw.stock_quantity ++
           ", Requested: " ++ toString it.quantity ++ ".")) := by
  have hid : db.findTxnById txn.id = some txn :=
    find_by_id_of_mem db.transactions txn huniq (List.mem_of_find?_eq_some hfind)
  refine ⟨?_, ?_, ?_, ?_, ?_, ?_⟩
  · unfold handleCallback
    simp [hBody, hrc, hcrid, hfind, hnt, hrcpt, hparse, hge, hM, hid,
          commitStatusTry, DB.updateTxn]
  · unfold handleCallback
    simp [hBody, hrc, hcrid, hfind, hnt, hrcpt, hparse, hge, hM, hid,
          commitStatusTry, DB.updateTxn]
  · unfold handleCallback
    simp [hBody, hrc, hcrid, hfind, hnt, hrcpt, hparse, hge, hM, hid,
          commitStatusTry, DB.updateTxn]
  · unfold handleCallback
    simp [hBody, hrc, hcrid, hfind, hnt, hrcpt, hparse, hge, hM, hid,
          commitStatusTry, DB.updateTxn]
  · unfold handleCallback
    simp [hBody, hrc, hcrid, hfind, hnt, hrcpt, hparse, hge, hM, hid,
          commitStatusTry, DB.updateTxn]
  · intro oid2 arts it rest aw hfa hstock
    simp only [materializeItems, hfa]
    rw [if_pos hstock]

/-- Witness for C4: the race loser's materialization fails the stock
re-check and is rolled back — no new order is created and the transaction
is committed as `failed_processing_error`. -/
theorem callback_materialize_rollback_witness :
    (handleCallback (handleCallback dbR true "oA" (.payload pA)).db true "oB"
        (.payload pB)).db.orders =
      (handleCallback dbR true "oA" (.payload pA)).db.orders ∧
    ((handleCallback (handleCallback dbR true "oA" (.payload pA)).db true "oB"
        (.payload pB)).db.findTxnById "tB").map (fun t => t.status) =
      some "failed_processing_error" := by
  have h := callback_materialize_rollback (handleCallback dbR true "oA" (.payload pA)).db
    "oB" pB tB 700
    "Insufficient stock for Last Unit (ID: wr). Available: 0, Requested: 1."
    (by decide) (by decide) (by decide) (by decide) (by decide) (by decide)
    (by decide) (by decide) (by decide) (by rfl)
  exact ⟨h.2.1, by rw [h.1]; decide⟩

/-- Counterexample for C6: when the gateway accepts the push request but
returns no correlation id, `order.py` line 149 writes the status
`failed_stk_missing_id`, which is not among the ten states enumerated in
section 4.1 of the spec. -/
theorem state_diagram_counterexample :
    ((checkout db0 "u1" (some rawOk) stkNoCrid "t9").writes.map fun w => w.next) =
      ["pending_stk_initiation", "failed_stk_missing_id"] ∧
    spec41States.contains "failed_stk_missing_id" = false := by
  decide

/-- C6 as amended: every committed status write made by checkout
initiation or the callback handler follows an edge of the state diagram
**extended with** the `failed_stk_missing_id` terminal state (reached
from `pending_stk_initiation` when the gateway accepts but returns no
correlation id).  The handler conjunct assumes the invariant that every
transaction carrying a correlation id is `pending_confirmation` or
terminal (which checkout establishes) and unique transaction ids (the
primary key). -/
theorem state_diagram_conformance :
    (∀ (db : DB) (uid : String) (jd : Option RawCheckout) (stk : StkResult) (fid : String),
        ∀ w ∈ (checkout db uid jd stk fid).writes, specEdgeAllowed w = true) ∧
    (∀ (db : DB) (commitOk : Bool) (oid : String) (input : CallbackInput),
        (∀ t ∈ db.transactions, t.checkout_request_id = none ∨
            t.status = "pending_confirmation" ∨ t.status ∈ finalStates) →
        (db.transactions.map fun t => t.id).Nodup →
        ∀ w ∈ (handleCallback db commitOk oid input).writes, specEdgeAllowed w = true) := by
  constructor
  · intro db uid jd stk fid w hw
    simp only [checkout] at hw
    repeat'
      first
      | exact absurd hw (List.not_mem_nil w)
      | split at hw
    all_goals fin_cases hw <;> rfl
  · intro db commitOk oid input hInv huniq w hw
    cases input with
    | invalidJson => cases hw
    | emptyBody => cases hw
    | payload p =>
      simp only [handleCallback] at hw
      split at hw
      next => cases hw
      next =>
        split at hw
        next => cases hw
        next =>
          split at hw
          next => cases hw
          next txn hfind =>
            split at hw
            next => cases hw
            next hnt =>
              have hmem := List.mem_of_find?_eq_some hfind
              have hcrid2 := List.find?_some hfind
              have hpc : txn.status = "pending_confirmation" := by
                rcases hInv txn hmem with h0 | h0 | h0
                · rw [h0] at hcrid2; cases hcrid2
                · exact h0
                · exact absurd h0 hnt
              split at hw
              next =>
                split at hw
                next =>
                  unfold commitStatusTry at hw
                  split at hw
                  next => fin_cases hw; rw [hpc]; rfl
                  next => cases hw
                next =>
                  split at hw
                  next =>
                    unfold commitStatusTry at hw
                    split at hw
                    next => fin_cases hw; rw [hpc]; rfl
                    next => cases hw
                  next amt hparse =>
                    split at hw
                    next =>
                      split at hw
                      next => fin_cases hw; rw [hpc]; rfl
                      next => cases hw
                    next =>
                      split at hw
                      next dbM hM =>
                        split at hw
                        next => fin_cases hw; rw [hpc]; rfl
                        next => cases hw
                      next ve hM =>
                        split at hw
                        next t0 ht0 =>
                          have ht0x : t0 = txn := by
                            have := find_by_id_of_mem db.transactions txn huniq hmem
                            rw [DB.findTxnById] at ht0
                            rw [this] at ht0
                            exact (Option.some.injEq _ _ ▸ ht0).symm
                          unfold commitStatusTry at hw
                          split at hw
                          next => fin_cases hw; rw [ht0x, hpc]; rfl
                          next => cases hw
                        next => cases hw
              next =>
                unfold commitStatusTry at hw
                split at hw
                next =>
                  fin_cases hw
                  rw [hpc]
                  split
                  next => rfl
                  next =>
                    split
                    next => rfl
                    next =>
                      split
                      next => rfl
                      next => rfl
                next => cases hw

/-- Witness for C6's amended claim: the committed write made by the
fixture success callback, `pending_confirmation` to `successful`, is an
edge of the diagram. -/
theorem state_diagram_conformance_witness :
    specEdgeAllowed { txn_id := "t1", prev := some "pending_confirmation",
                      next := "successful" } = true :=
  state_diagram_conformance.2 db0 true "o1" (.payload okPayload) (by decide) (by decide)
    { txn_id := "t1", prev := some "pending_confirmation", next := "successful" } (by decide)

/-- A successful run of the checkout pricing loop implies every item
passed its own checks: its artwork (when found by the loop's lookup) is
active, its artist (when found) is active, and stock covers the
quantity. -/
theorem priceCartItems_checks (db : DB) (items : List CartItem) :
    ∀ sub snaps, priceCartItems db items = .ok (sub, snaps) →
      ∀ it ∈ items, ∀ aw, (db.artworks.find? fun a => a.id == it.artwork_id) = some aw →
        aw.is_active = true ∧
        (∀ ar, (db.artists.find? fun r => r.id == aw.artist_id) = some ar →
          ar.is_active = true) ∧
        ¬ aw.stock_quantity < it.quantity := by
  induction items with
  | nil => intro sub snaps h it hit; cases hit
  | cons it0 rest ih =>
    intro sub snaps h it hit aw hfa
    simp only [priceCartItems] at h
    cases hf : db.artworks.find? fun a => a.id == it0.artwork_id with
    | none => simp [hf] at h
    | some aw0 =>
      simp only [hf] at h
      cases hact : aw0.is_active with
      | false => simp [hact] at h
      | true =>
        simp only [hact] at h
        cases hfar : db.artists.find? fun ar => ar.id == aw0.artist_id with
        | none => simp [hfar] at h
        | some ar0 =>
          simp only [hfar] at h
          cases haract : ar0.is_active with
          | false => simp [haract] at h
          | true =>
            simp only [haract] at h
            by_cases hlt : aw0.stock_quantity < it0.quantity
            · simp [hlt] at h
            · simp only [hlt, if_false, not_false_eq_true, not_true, Bool.not_true,
                         ite_false, ite_true, if_true, if_neg, Bool.not_eq_true] at h
              cases hrec : priceCartItems db rest with
              | error e => simp [hrec] at h
              | ok pr =>
                obtain ⟨sub0, snaps0⟩ := pr
                rcases List.mem_cons.mp hit with rfl | hit2
                · rw [hf] at hfa
                  obtain rfl : aw0 = aw := by injection hfa
                  refine ⟨hact, ?_, hlt⟩
                  intro ar har
                  rw [hfar] at har
                  obtain rfl : ar0 = ar := by injection har
                  exact haract
                · exact ih sub0 snaps0 hrec it hit2 aw hfa

/-- C10: initiation boundary atomicity.  Whenever a checkout request
fails validation — malformed phone number, empty cart, invalid or
inactive delivery option, inactive artwork or artist, insufficient
stock, or computed total at most 0 — the request is rejected before any
`PaymentTransaction` row is written: the response is an abort and the
committed database is exactly the one the request started from. -/
theorem checkout_boundary (db : DB) (uid : String) (raw : RawCheckout)
    (stk : StkResult) (fid : String)
    (hfail :
      (∃ ph, raw.phone_number = some ph ∧ phoneValid ph = false) ∨
      ((db.carts.find? fun c => c.user_id == uid) = none ∨
        (∃ cart, (db.carts.find? fun c => c.user_id == uid) = some cart ∧
          cartItemsOf db cart.id = [])) ∨
      (∃ doid, raw.delivery_option_id = some doid ∧
        ((db.deliveryOptions.find? fun d => d.id == doid) = none ∨
          (∃ dopt, (db.deliveryOptions.find? fun d => d.id == doid) = some dopt ∧
            dopt.active = false))) ∨
      (∃ cart, (db.carts.find? fun c => c.user_id == uid) = some cart ∧
        ∃ it ∈ cartItemsOf db cart.id, ∃ aw,
          (db.artworks.find? fun a => a.id == it.artwork_id) = some aw ∧
          (aw.is_active = false ∨
            (∃ ar, (db.artists.find? fun r => r.id == aw.artist_id) = some ar ∧
              ar.is_active = false) ∨
            aw.stock_quantity < it.quantity)) ∨
      (∃ cart dopt sub snaps,
        (db.carts.find? fun c => c.user_id == uid) = some cart ∧
        (∃ doid, raw.delivery_option_id = some doid ∧
          (db.deliveryOptions.find? fun d => d.id == doid) = some dopt) ∧
        priceCartItems db (cartItemsOf db cart.id) = .ok (sub, snaps) ∧
        qadd sub dopt.price ≤ 0)) :
    (checkout db uid (some raw) stk fid).aborted = true ∧
    (checkout db uid (some raw) stk fid).db = db := by
  rcases hu : db.users.find? fun u => u.id == uid with _ | u
  · simp [checkout, hu]
  rcases hph : raw.phone_number with _ | phone
  · simp [checkout, hu, hph]
  rcases hdo : raw.delivery_option_id with _ | doid
  · simp [checkout, hu, hph, hdo]
  cases hpv : phoneValid phone with
  | false => simp [checkout, hu, hph, hdo, hpv]
  | true =>
  rcases hcart : db.carts.find? fun c => c.user_id == uid with _ | cart
  · simp [checkout, hu, hph, hdo, hpv, hcart]
  cases hne : (cartItemsOf db cart.id).isEmpty with
  | true => simp [checkout, hu, hph, hdo, hpv, hcart, hne]
  | false =>
  rcases hdopt : db.deliveryOptions.find? fun d => d.id == doid with _ | dopt
  · simp [checkout, hu, hph, hdo, hpv, hcart, hne, hdopt]
  cases hact : dopt.active with
  | false => simp [checkout, hu, hph, hdo, hpv, hcart, hne, hdopt, hact]
  | true =>
  rcases hp : priceCartItems db (cartItemsOf db cart.id) with e | ⟨sub, snaps⟩
  · simp [checkout, hu, hph, hdo, hpv, hcart, hne, hdopt, hact, hp]
  by_cases hsub : sub < 0
  · simp [checkout, hu, hph, hdo, hpv, hcart, hne, hdopt, hact, hp, hsub]
  by_cases htot : qadd sub dopt.price ≤ 0
  · simp [checkout, hu, hph, hdo, hpv, hcart, hne, hdopt, hact, hp, hsub, htot]
  exfalso
  rcases hfail with ⟨ph, hph2, hpv2⟩ | hfailB | ⟨doid2, hdo2, hfailC⟩ |
    ⟨cart2, hc2, it, hit, aw, hfa, hbad⟩ |
    ⟨cart2, dopt2, sub2, snaps2, hc2, ⟨doid2, hdo2, hd2⟩, hp2, htot2⟩
  · rw [hph, Option.some.injEq] at hph2
    subst hph2
    rw [hpv] at hpv2
    cases hpv2
  · rcases hfailB with hc | ⟨cart2, hc2, hempty⟩
    · rw [hcart] at hc; cases hc
    · rw [hcart, Option.some.injEq] at hc2
      subst hc2
      rw [hempty] at hne
      cases hne
  · rw [hdo, Option.some.injEq] at hdo2
    subst hdo2
    rcases hfailC with hd | ⟨dopt2, hd2, hact2⟩
    · rw [hdopt] at hd; cases hd
    · rw [hdopt, Option.some.injEq] at hd2
      subst hd2
      rw [hact] at hact2
      cases hact2
  · rw [hcart, Option.some.injEq] at hc2
    subst hc2
    have hchecks := priceCartItems_checks db _ sub snaps hp it hit aw hfa
    rcases hbad with hb | ⟨ar, har, hb⟩ | hb
    · rw [hchecks.1] at hb; cases hb
    · rw [hchecks.2.1 ar har] at hb; cases hb
    · exact hchecks.2.2 hb
  · rw [hdo, Option.some.injEq] at hdo2
    subst hdo2
    rw [hcart, Option.some.injEq] at hc2
    subst hc2
    rw [hdopt, Option.some.injEq] at hd2
    subst hd2
    rw [hp] at hp2
    obtain ⟨h1, h2⟩ : sub = sub2 ∧ snaps = snaps2 := by simpa using hp2
    subst h1
    exact htot htot2

/-- Witness for C10: a malformed phone number (`"123"`) is rejected and
leaves the fixture database untouched. -/
theorem checkout_boundary_witness :
    (checkout db0 "u1" (some rawBadPhone) stkNoCrid "t9").aborted = true ∧
    (checkout db0 "u1" (some rawBadPhone) stkNoCrid "t9").db = db0 :=
  checkout_boundary db0 "u1" rawBadPhone stkNoCrid "t9"
    (Or.inl ⟨"123", rfl, by decide⟩)

end Shoply
